import Mathlib

/-!
Shallow embedding of the chat-turn orchestration core of the
Scraper-Chat-bot repository (`backend/routes/chat.py`,
`backend/utils/db.py`), together with proofs of the behavioural
properties stated about it.

The SQLite tables are modelled as in-memory lists of rows kept in
insertion order.  `datetime.now().isoformat()` timestamps are modelled
by a strictly increasing `clock : Nat` on the database state: every
operation that takes a timestamp in the source consumes the current
clock value and increments it.  Since timestamps produced this way are
strictly increasing with insertion, a `SELECT ... ORDER BY timestamp ASC`
over a single table coincides with a filter of the insertion-ordered
row list, which is how `get_chat_messages` is rendered below.

The two external collaborators (the Crawl4AI scraper and the OpenAI
helper) are passed to `send_message` as oracle functions returning the
same result dictionaries the Python wrappers return; the outcome
additionally records the calls made to them so that "the responder was
not invoked" style properties are expressible.
-/

namespace ScraperChat

/-- The whitespace set of Python's `str.strip()`. -/
def isPySpace (c : Char) : Bool :=
  c = ' ' || c = '\t' || c = '\n' || c = '\r' || c = '\x0b' || c = '\x0c'

/-- Python `s.strip()`: drop leading and trailing whitespace. -/
def pyStrip (s : String) : String :=
  String.mk (((s.data.dropWhile isPySpace).reverse.dropWhile isPySpace).reverse)

/-- Python `s.replace('\x00', '')`: remove every null byte. -/
def removeNulls (s : String) : String :=
  String.mk (s.data.filter (fun c => c ≠ '\x00'))

/-- Python `s[:n]`: take the first `n` code points. -/
def pyTake (s : String) (n : Nat) : String :=
  String.mk (s.data.take n)

/-- Python `len(s)`: number of code points. -/
def pyLen (s : String) : Nat :=
  s.data.length

/-- `sanitize_db_input` from `backend/utils/db.py`: on falsy input return
the empty string, otherwise remove null bytes and strip whitespace. -/
def sanitize_db_input (text : String) : String :=
  if text = "" then ""
  else pyStrip (removeNulls text)

/-- A row of the `chats` table. -/
structure ChatRow where
  id : String
  user_id : Nat
  created_at : Nat
  updated_at : Nat
deriving DecidableEq, Repr

/-- A row of the `messages` table. -/
structure MessageRow where
  chat_id : String
  role : String
  content : String
  timestamp : Nat
deriving DecidableEq, Repr

/-- A row of the `chat_metadata` table (the per-chat scrape cache). -/
structure MetadataRow where
  chat_id : String
  last_url : String
  last_scraped_content : String
deriving DecidableEq, Repr

/-- The persistent store: the three chat-related tables in insertion
order, plus the monotone clock supplying timestamps. -/
structure DBState where
  chats : List ChatRow
  messages : List MessageRow
  chat_metadata : List MetadataRow
  clock : Nat
deriving DecidableEq, Repr

/-- The store of a freshly initialised database. -/
def emptyDB : DBState := ⟨[], [], [], 0⟩

/-- `create_chat` from `db.py`: insert a chat row whose `created_at` and
`updated_at` are the current timestamp.  The UUID generated by the
source is supplied as the `chat_id` argument. -/
def create_chat (db : DBState) (chat_id : String) (user_id : Nat) : DBState :=
  { db with
      chats := db.chats ++ [⟨chat_id, user_id, db.clock, db.clock⟩]
      clock := db.clock + 1 }

/-- `verify_chat_ownership` from `routes/chat.py`: fetch the first
`chats` row with the given id and compare its `user_id`. -/
def verify_chat_ownership (db : DBState) (chat_id : String) (user_id : Nat) : Bool :=
  match db.chats.find? (fun c => c.id = chat_id) with
  | some row => row.user_id = user_id
  | none => false

/-- `get_chat_messages` from `db.py`: all message rows of the chat in
timestamp order (= insertion order, see the module comment). -/
def get_chat_messages (db : DBState) (chat_id : String) : List MessageRow :=
  db.messages.filter (fun m => m.chat_id = chat_id)

/-- `add_message` from `db.py`: sanitize the content and insert a
message row stamped with the current timestamp. -/
def add_message (db : DBState) (chat_id role content : String) : DBState :=
  { db with
      messages := db.messages ++ [⟨chat_id, role, sanitize_db_input content, db.clock⟩]
      clock := db.clock + 1 }

/-- `update_chat_timestamp` from `db.py`: set `updated_at` of every
`chats` row with the given id to the current timestamp. -/
def update_chat_timestamp (db : DBState) (chat_id : String) : DBState :=
  { db with
      chats := db.chats.map (fun c =>
        if c.id = chat_id then { c with updated_at := db.clock } else c)
      clock := db.clock + 1 }

/-- `save_chat_metadata` from `db.py`: sanitize url and content and
`INSERT OR REPLACE` the single `chat_metadata` row keyed by the chat. -/
def save_chat_metadata (db : DBState) (chat_id url content : String) : DBState :=
  { db with
      chat_metadata :=
        db.chat_metadata.filter (fun m => m.chat_id ≠ chat_id) ++
          [⟨chat_id, sanitize_db_input url, sanitize_db_input content⟩] }

/-- `get_chat_metadata` from `db.py`: fetch the first `chat_metadata`
row with the given chat id, if any. -/
def get_chat_metadata (db : DBState) (chat_id : String) : Option MetadataRow :=
  db.chat_metadata.find? (fun m => m.chat_id = chat_id)

/-- The dictionary `WebScraper.scrape_sync` returns. -/
structure ScrapeResult where
  success : Bool
  content : String
  title : String
  error : String
deriving DecidableEq, Repr

/-- The dictionary `OpenAIHelper.generate_response` returns. -/
structure AIResult where
  success : Bool
  response : String
  error : String
deriving DecidableEq, Repr

/-- A recorded call to the scraper: the resolved chat id, the url passed
to `scrape_sync`, and the result it returned. -/
structure ScrapeEvent where
  chat_id : String
  url : String
  result : ScrapeResult
deriving DecidableEq, Repr

/-- A recorded call to `generate_response`: the keyword arguments of the
call at `routes/chat.py` line 134 (`none` models Python `None` for
`website_content`). -/
structure GenCall where
  user_prompt : String
  website_content : Option String
  conversation_history : List (String × String)
deriving DecidableEq, Repr

/-- The JSON request body of `POST /message` after the `data.get` calls:
`chat_id` is `none` when the key is absent (Python `None`); `url` and
`prompt` carry the defaulted-to-`''` values. -/
structure RequestData where
  chat_id : Option String
  url : String
  prompt : String
deriving DecidableEq, Repr

/-- The HTTP-level result of a turn: either the success payload
`{response, chat_id}` or an error message with its status code. -/
inductive TurnResult where
  | ok (response : String) (chat_id : String)
  | error (message : String) (status : Nat)
deriving DecidableEq, Repr

/-- Everything a `send_message` call produces: its HTTP result, the
database state after the call, and the calls it made to the scraper and
the responder. -/
structure TurnOutcome where
  result : TurnResult
  db : DBState
  scrapeCalls : List ScrapeEvent
  genCalls : List GenCall
deriving DecidableEq, Repr

/-- Chat resolution, lines 96-102 of `routes/chat.py`: a truthy
`chat_id` must pass the ownership check (`none` = 404 response),
otherwise a fresh chat is created and its id used. -/
def resolveChat (db : DBState) (freshChatId : String) (user_id : Nat)
    (reqChatId : Option String) : Option (String × DBState) :=
  match reqChatId with
  | some c =>
      if c = "" then some (freshChatId, create_chat db freshChatId user_id)
      else if verify_chat_ownership db c user_id then some (c, db)
      else none
  | none => some (freshChatId, create_chat db freshChatId user_id)

/-- Lines 133-159 of `routes/chat.py`: call the responder and, on
success, commit the user message, the assistant message and the
timestamp bump, in that order. -/
def finishTurn (responder : String → Option String → List (String × String) → AIResult)
    (chat_id prompt : String) (website_content : Option String)
    (conversation_history : List (String × String)) (db : DBState)
    (sCalls : List ScrapeEvent) : TurnOutcome :=
  let ai_result := responder prompt website_content conversation_history
  if ai_result.success then
    let db1 := add_message db chat_id "user" prompt
    let db2 := add_message db1 chat_id "assistant" ai_result.response
    let db3 := update_chat_timestamp db2 chat_id
    ⟨.ok ai_result.response chat_id, db3, sCalls,
      [⟨prompt, website_content, conversation_history⟩]⟩
  else
    ⟨.error ("Failed to generate response: " ++ ai_result.error) 500, db, sCalls,
      [⟨prompt, website_content, conversation_history⟩]⟩

/-- `send_message` from `routes/chat.py` (the handler body after
authentication): validation, chat resolution, history load, scraping or
cache lookup, responder call, and ordered persistence.  `scraper` and
`responder` are the injected collaborators; `freshChatId` stands for
the UUID `create_chat` would mint. -/
def send_message (scraper : String → ScrapeResult)
    (responder : String → Option String → List (String × String) → AIResult)
    (freshChatId : String) (user_id : Nat)
    (data : Option RequestData) (db : DBState) : TurnOutcome :=
  match data with
  | none => ⟨.error "No data provided" 400, db, [], []⟩
  | some d =>
    let prompt := pyStrip d.prompt
    if prompt = "" then ⟨.error "Prompt is required" 400, db, [], []⟩
    else
      let url := pyStrip d.url
      match resolveChat db freshChatId user_id d.chat_id with
      | none => ⟨.error "Chat not found or access denied" 404, db, [], []⟩
      | some (chat_id, db1) =>
        let conversation_history :=
          (get_chat_messages db1 chat_id).map (fun m => (m.role, m.content))
        if url = "" then
          let website_content : Option String :=
            match get_chat_metadata db1 chat_id with
            | some m =>
                if m.last_scraped_content = "" then none
                else some m.last_scraped_content
            | none => none
          finishTurn responder chat_id prompt website_content conversation_history db1 []
        else
          let scrape_result := scraper url
          if scrape_result.success then
            let db2 := save_chat_metadata db1 chat_id url scrape_result.content
            finishTurn responder chat_id prompt (some scrape_result.content)
              conversation_history db2 [⟨chat_id, url, scrape_result⟩]
          else
            ⟨.error ("Failed to scrape website: " ++ scrape_result.error) 400, db1,
              [⟨chat_id, url, scrape_result⟩], []⟩

/-- The preview computation of `get_history` (`routes/chat.py` lines
191-196): `'New Chat'` for an empty message list, otherwise the first
message's content sliced to 50 code points with `'...'` appended
exactly when the content is longer than 50. -/
def previewOf (messages : List MessageRow) : String :=
  match messages with
  | [] => "New Chat"
  | m :: _ =>
      pyTake m.content 50 ++ (if 50 < pyLen m.content then "..." else "")

/-- One entry of the `GET /history` response. -/
structure HistoryEntry where
  chat_id : String
  created_at : Nat
  updated_at : Nat
  preview : String
deriving DecidableEq, Repr

/-- `get_user_chats` from `db.py`: the user's chats ordered by
`updated_at` descending. -/
def get_user_chats (db : DBState) (user_id : Nat) : List ChatRow :=
  (db.chats.filter (fun c => c.user_id = user_id)).mergeSort
    (fun a b => b.updated_at ≤ a.updated_at)

/-- `get_history` from `routes/chat.py`: list the user's chats, each
with the preview of its first message. -/
def get_history (db : DBState) (user_id : Nat) : List HistoryEntry :=
  (get_user_chats db user_id).map (fun c =>
    ⟨c.id, c.created_at, c.updated_at, previewOf (get_chat_messages db c.id)⟩)

/-! ### Concrete collaborators used in witnesses and counterexamples -/

/-- A scraper whose every call fails with message `"boom"`. -/
def failScraper : String → ScrapeResult := fun _ => ⟨false, "", "", "boom"⟩

/-- A scraper whose every call succeeds with the given content. -/
def okScraper (content : String) : String → ScrapeResult :=
  fun _ => ⟨true, content, "title", ""⟩

/-- A responder whose every call succeeds with the given text. -/
def okResponder (text : String) :
    String → Option String → List (String × String) → AIResult :=
  fun _ _ _ => ⟨true, text, ""⟩

/-- A responder whose every call fails with message `"genboom"`. -/
def failResponder : String → Option String → List (String × String) → AIResult :=
  fun _ _ _ => ⟨false, "", "genboom"⟩

/-! ### Successful-turn chains (for the message-history invariant) -/

/-- Well-formedness of a store state: all stored timestamps lie strictly
below the clock.  This holds for every state the operations build, since
each timestamp consumed the then-current clock value. -/
def WF (db : DBState) : Prop :=
  (∀ m ∈ db.messages, m.timestamp < db.clock) ∧
  (∀ ch ∈ db.chats, ch.updated_at < db.clock)

instance (db : DBState) : Decidable (WF db) := by
  unfold WF
  infer_instance

/-- The `updated_at` column of the chat's row, if the chat exists. -/
def chatUpdatedAt (db : DBState) (c : String) : Option Nat :=
  (db.chats.find? (fun ch => ch.id = c)).map (fun ch => ch.updated_at)

/-- One successful turn of `send_message` on chat `c` (the request names
`c` and the call returns the 200 payload for `c`), taking the store from
`db` to `db'`; `uc`/`ac` are the user/assistant message contents the
turn persisted: the sanitized prompt and the sanitized responder
output. -/
def TurnOk (uid : Nat) (c : String) (db : DBState) (uc ac : String)
    (db' : DBState) : Prop :=
  c ≠ "" ∧
  ∃ (scraper : String → ScrapeResult)
    (responder : String → Option String → List (String × String) → AIResult)
    (fid : String) (d : RequestData) (resp : String),
      d.chat_id = some c ∧
      (send_message scraper responder fid uid (some d) db).result = .ok resp c ∧
      (send_message scraper responder fid uid (some d) db).db = db' ∧
      uc = sanitize_db_input (pyStrip d.prompt) ∧
      ac = sanitize_db_input resp

/-- A sequence of successful turns on chat `c`, recording for each turn
the pair of persisted contents. -/
def SuccChain (uid : Nat) (c : String) :
    DBState → List (String × String) → DBState → Prop
  | db, [], db' => db' = db
  | db, p :: ps, db'' => ∃ db', TurnOk uid c db p.1 p.2 db' ∧ SuccChain uid c db' ps db''



/-- The states reachable through this core's write paths — the fresh
store, `create_chat` (the new-chat endpoint), and whole `send_message`
turns with arbitrary collaborators and requests — paired with the log
of every scraper call made along the way. -/
inductive Reachable : DBState → List ScrapeEvent → Prop
  | init : Reachable emptyDB []
  | newChat (fid : String) (uid : Nat) (db : DBState) (tr : List ScrapeEvent) :
      Reachable db tr → Reachable (create_chat db fid uid) tr
  | turn (scraper : String → ScrapeResult)
      (responder : String → Option String → List (String × String) → AIResult)
      (fid : String) (uid : Nat) (data : Option RequestData)
      (db : DBState) (tr : List ScrapeEvent) :
      Reachable db tr →
      Reachable (send_message scraper responder fid uid data db).db
        (tr ++ (send_message scraper responder fid uid data db).scrapeCalls)

/-! ### Projection lemmas for the store operations -/

@[simp] theorem create_chat_messages (db : DBState) (c : String) (u : Nat) :
    (create_chat db c u).messages = db.messages := rfl

@[simp] theorem create_chat_metadata (db : DBState) (c : String) (u : Nat) :
    (create_chat db c u).chat_metadata = db.chat_metadata := rfl

@[simp] theorem create_chat_chats (db : DBState) (c : String) (u : Nat) :
    (create_chat db c u).chats = db.chats ++ [⟨c, u, db.clock, db.clock⟩] := rfl

@[simp] theorem create_chat_clock (db : DBState) (c : String) (u : Nat) :
    (create_chat db c u).clock = db.clock + 1 := rfl

@[simp] theorem add_message_chats (db : DBState) (c r t : String) :
    (add_message db c r t).chats = db.chats := rfl

@[simp] theorem add_message_metadata (db : DBState) (c r t : String) :
    (add_message db c r t).chat_metadata = db.chat_metadata := rfl

@[simp] theorem add_message_messages (db : DBState) (c r t : String) :
    (add_message db c r t).messages =
      db.messages ++ [⟨c, r, sanitize_db_input t, db.clock⟩] := rfl

@[simp] theorem add_message_clock (db : DBState) (c r t : String) :
    (add_message db c r t).clock = db.clock + 1 := rfl

@[simp] theorem update_chat_timestamp_messages (db : DBState) (c : String) :
    (update_chat_timestamp db c).messages = db.messages := rfl

@[simp] theorem update_chat_timestamp_metadata (db : DBState) (c : String) :
    (update_chat_timestamp db c).chat_metadata = db.chat_metadata := rfl

@[simp] theorem update_chat_timestamp_chats (db : DBState) (c : String) :
    (update_chat_timestamp db c).chats =
      db.chats.map (fun ch =>
        if ch.id = c then { ch with updated_at := db.clock } else ch) := rfl

@[simp] theorem update_chat_timestamp_clock (db : DBState) (c : String) :
    (update_chat_timestamp db c).clock = db.clock + 1 := rfl

@[simp] theorem save_chat_metadata_chats (db : DBState) (c u t : String) :
    (save_chat_metadata db c u t).chats = db.chats := rfl

@[simp] theorem save_chat_metadata_messages (db : DBState) (c u t : String) :
    (save_chat_metadata db c u t).messages = db.messages := rfl

@[simp] theorem save_chat_metadata_clock (db : DBState) (c u t : String) :
    (save_chat_metadata db c u t).clock = db.clock := rfl

@[simp] theorem save_chat_metadata_metadata (db : DBState) (c u t : String) :
    (save_chat_metadata db c u t).chat_metadata =
      db.chat_metadata.filter (fun m => m.chat_id ≠ c) ++
        [⟨c, sanitize_db_input u, sanitize_db_input t⟩] := rfl

/-- Chat resolution never touches the `messages` or `chat_metadata`
tables: the resolved state is the input state or the input state with
one fresh chat row appended. -/
theorem resolveChat_state {db : DBState} {fid : String} {uid : Nat}
    {reqChatId : Option String} {c : String} {db1 : DBState}
    (h : resolveChat db fid uid reqChatId = some (c, db1)) :
    db1 = db ∨ (c = fid ∧ db1 = create_chat db fid uid) := by
  cases reqChatId with
  | none =>
      simp only [resolveChat, Option.some.injEq, Prod.mk.injEq] at h
      right; exact ⟨h.1.symm, h.2.symm⟩
  | some s =>
      simp only [resolveChat] at h
      split at h
      · simp only [Option.some.injEq, Prod.mk.injEq] at h
        right; exact ⟨h.1.symm, h.2.symm⟩
      · split at h
        · simp only [Option.some.injEq, Prod.mk.injEq] at h
          left; exact h.2.symm
        · exact absurd h (by simp)

/-- A supplied, non-empty `chat_id` that passes the ownership check
resolves to itself with the store untouched. -/
theorem resolveChat_owned {db : DBState} {fid : String} {uid : Nat} {c : String}
    (hc : c ≠ "") (hv : verify_chat_ownership db c uid = true) :
    resolveChat db fid uid (some c) = some (c, db) := by
  simp [resolveChat, hc, hv]

/-- Looking up the cache of a chat right after an upsert for that chat
returns exactly the sanitized url/content pair just written. -/
theorem get_chat_metadata_save (db : DBState) (c u t : String) :
    get_chat_metadata (save_chat_metadata db c u t) c =
      some ⟨c, sanitize_db_input u, sanitize_db_input t⟩ := by
  unfold get_chat_metadata
  rw [save_chat_metadata_metadata, List.find?_append]
  have h1 : (db.chat_metadata.filter (fun m => m.chat_id ≠ c)).find?
      (fun m => m.chat_id = c) = none := by
    rw [List.find?_eq_none]
    intro m hm
    simpa using (List.mem_filter.1 hm).2
  rw [h1]
  simp

/-- After an upsert for a chat, that chat's rows in the cache table are
exactly the one just written. -/
theorem metadata_filter_save (db : DBState) (c u t : String) :
    ((save_chat_metadata db c u t).chat_metadata.filter (fun m => m.chat_id = c)) =
      [⟨c, sanitize_db_input u, sanitize_db_input t⟩] := by
  rw [save_chat_metadata_metadata, List.filter_append]
  have h1 : (db.chat_metadata.filter (fun m => m.chat_id ≠ c)).filter
      (fun m => m.chat_id = c) = [] := by
    rw [List.filter_eq_nil_iff]
    intro m hm
    simpa using (List.mem_filter.1 hm).2
  rw [h1]
  simp

@[simp] theorem ite_bump_id (ch : ChatRow) (x : String) (k : Nat) :
    (if ch.id = x then { ch with updated_at := k } else ch).id = ch.id := by
  split <;> rfl

@[simp] theorem ite_bump_user_id (ch : ChatRow) (x : String) (k : Nat) :
    (if ch.id = x then { ch with updated_at := k } else ch).user_id = ch.user_id := by
  split <;> rfl

/-- The ownership check only reads the `chats` table. -/
theorem verify_eq_of_chats_eq {db db' : DBState} (h : db'.chats = db.chats)
    (c : String) (uid : Nat) :
    verify_chat_ownership db' c uid = verify_chat_ownership db c uid := by
  unfold verify_chat_ownership
  rw [h]

/-- Bumping a chat's timestamp changes neither chat ids nor owners, so
the ownership check is unaffected. -/
theorem verify_chat_ownership_update (db : DBState) (x c : String) (uid : Nat) :
    verify_chat_ownership (update_chat_timestamp db x) c uid =
      verify_chat_ownership db c uid := by
  unfold verify_chat_ownership
  rw [update_chat_timestamp_chats, List.find?_map]
  have hpred : ((fun ch : ChatRow => decide (ch.id = c)) ∘
      (fun ch => if ch.id = x then { ch with updated_at := db.clock } else ch)) =
      (fun ch : ChatRow => decide (ch.id = c)) := by
    funext ch
    simp [Function.comp]
  rw [hpred]
  cases h : db.chats.find? (fun ch => ch.id = c) <;> simp

/-- In a cache table from which chat `c`'s rows were removed before one
row for `c` was appended, looking up `c` finds exactly that row. -/
theorem metadata_lookup_replaced (L : List MetadataRow) (row : MetadataRow)
    (c : String) (hrow : row.chat_id = c) :
    (L.filter (fun m => m.chat_id ≠ c) ++ [row]).find? (fun m => m.chat_id = c) =
      some row := by
  rw [List.find?_append]
  have h1 : (L.filter (fun m => m.chat_id ≠ c)).find? (fun m => m.chat_id = c) =
      none := by
    rw [List.find?_eq_none]
    intro m hm
    simpa using (List.mem_filter.1 hm).2
  rw [h1]
  simp [hrow]

/-- In such a table, chat `c` owns exactly the appended row. -/
theorem metadata_rows_replaced (L : List MetadataRow) (row : MetadataRow)
    (c : String) (hrow : row.chat_id = c) :
    (L.filter (fun m => m.chat_id ≠ c) ++ [row]).filter (fun m => m.chat_id = c) =
      [row] := by
  rw [List.filter_append]
  have h1 : (L.filter (fun m => m.chat_id ≠ c)).filter (fun m => m.chat_id = c) =
      [] := by
    rw [List.filter_eq_nil_iff]
    intro m hm
    simpa using (List.mem_filter.1 hm).2
  rw [h1]
  simp [hrow]

/-- The commit helper either performs the full three-write commit
(responder success) or returns its store untouched (responder
failure). -/
theorem finishTurn_db_cases
    (responder : String → Option String → List (String × String) → AIResult)
    (cid p : String) (wc : Option String) (hist : List (String × String))
    (db : DBState) (sCalls : List ScrapeEvent) :
    (finishTurn responder cid p wc hist db sCalls).db =
        update_chat_timestamp (add_message (add_message db cid "user" p) cid
          "assistant" (responder p wc hist).response) cid ∨
    (finishTurn responder cid p wc hist db sCalls).db = db := by
  by_cases hg : (responder p wc hist).success = true
  · left
    simp [finishTurn, hg]
  · right
    simp [finishTurn, hg]

/-- The commit helper always makes exactly one responder call, with the
page context, prompt and history it was given. -/
theorem finishTurn_genCalls
    (responder : String → Option String → List (String × String) → AIResult)
    (cid p : String) (wc : Option String) (hist : List (String × String))
    (db : DBState) (sCalls : List ScrapeEvent) :
    (finishTurn responder cid p wc hist db sCalls).genCalls = [⟨p, wc, hist⟩] := by
  by_cases hg : (responder p wc hist).success = true <;> simp [finishTurn, hg]

/-- A turn whose prompt trims to the empty string is rejected wholesale. -/
theorem send_message_empty_prompt (scraper : String → ScrapeResult)
    (responder : String → Option String → List (String × String) → AIResult)
    (freshChatId : String) (user_id : Nat) (d : RequestData) (db : DBState)
    (h : pyStrip d.prompt = "") :
    send_message scraper responder freshChatId user_id (some d) db =
      ⟨.error "Prompt is required" 400, db, [], []⟩ := by
  simp [send_message, h]

/-- The commit helper returns the scraper-call log it was handed. -/
theorem finishTurn_scrapeCalls
    (responder : String → Option String → List (String × String) → AIResult)
    (cid p : String) (wc : Option String) (hist : List (String × String))
    (db : DBState) (sCalls : List ScrapeEvent) :
    (finishTurn responder cid p wc hist db sCalls).scrapeCalls = sCalls := by
  by_cases hg : (responder p wc hist).success = true <;> simp [finishTurn, hg]

/-- The commit helper never touches the scrape-cache table. -/
theorem finishTurn_metadata
    (responder : String → Option String → List (String × String) → AIResult)
    (cid p : String) (wc : Option String) (hist : List (String × String))
    (db : DBState) (sCalls : List ScrapeEvent) :
    (finishTurn responder cid p wc hist db sCalls).db.chat_metadata =
      db.chat_metadata := by
  rcases finishTurn_db_cases responder cid p wc hist db sCalls with h | h <;>
    simp [h]

/-- Every `send_message` call either leaves the scrape-cache table
unchanged, or made exactly one scraper call, which succeeded, and
replaced the resolved chat's cache row with that call's sanitized url
and content. -/
theorem send_message_metadata_cases (scraper : String → ScrapeResult)
    (responder : String → Option String → List (String × String) → AIResult)
    (fid : String) (uid : Nat) (data : Option RequestData) (db : DBState) :
    (send_message scraper responder fid uid data db).db.chat_metadata =
        db.chat_metadata ∨
    ∃ cid u sr,
      (send_message scraper responder fid uid data db).scrapeCalls =
        [⟨cid, u, sr⟩] ∧
      sr.success = true ∧
      (send_message scraper responder fid uid data db).db.chat_metadata =
        db.chat_metadata.filter (fun m => m.chat_id ≠ cid) ++
          [⟨cid, sanitize_db_input u, sanitize_db_input sr.content⟩] := by
  cases data with
  | none => left; rfl
  | some d =>
      by_cases hp : pyStrip d.prompt = ""
      · left
        rw [send_message_empty_prompt scraper responder fid uid d db hp]
      · cases hr : resolveChat db fid uid d.chat_id with
        | none =>
            left
            simp [send_message, hp, hr]
        | some pair =>
            obtain ⟨cid, db1⟩ := pair
            have hmeta1 : db1.chat_metadata = db.chat_metadata := by
              rcases resolveChat_state hr with h | ⟨-, h⟩ <;> subst h <;> simp
            by_cases hu : pyStrip d.url = ""
            · left
              have hout : send_message scraper responder fid uid (some d) db =
                  finishTurn responder cid (pyStrip d.prompt)
                    (match get_chat_metadata db1 cid with
                      | some m =>
                          if m.last_scraped_content = "" then none
                          else some m.last_scraped_content
                      | none => none)
                    ((get_chat_messages db1 cid).map (fun x => (x.role, x.content)))
                    db1 [] := by
                simp [send_message, hp, hr, hu]
              rw [hout, finishTurn_metadata]
              exact hmeta1
            · cases hs : (scraper (pyStrip d.url)).success with
              | false =>
                  left
                  have hout : send_message scraper responder fid uid (some d) db =
                      ⟨.error ("Failed to scrape website: " ++
                          (scraper (pyStrip d.url)).error) 400, db1,
                        [⟨cid, pyStrip d.url, scraper (pyStrip d.url)⟩], []⟩ := by
                    simp [send_message, hp, hr, hu, hs]
                  rw [hout]
                  exact hmeta1
              | true =>
                  right
                  refine ⟨cid, pyStrip d.url, scraper (pyStrip d.url), ?_, hs, ?_⟩ <;>
                    · have hout : send_message scraper responder fid uid (some d) db =
                          finishTurn responder cid (pyStrip d.prompt)
                            (some (scraper (pyStrip d.url)).content)
                            ((get_chat_messages db1 cid).map
                              (fun x => (x.role, x.content)))
                            (save_chat_metadata db1 cid (pyStrip d.url)
                              (scraper (pyStrip d.url)).content)
                            [⟨cid, pyStrip d.url, scraper (pyStrip d.url)⟩] := by
                        simp [send_message, hp, hr, hu, hs]
                      rw [hout]
                      simp [finishTurn_scrapeCalls, finishTurn_metadata, hmeta1]

/-- Shape of a turn on an owned chat whose url is truthy and whose
scrape succeeds, for an arbitrary responder outcome: the cache table is
the upsert of the sanitized scrape, and the ownership check afterwards
agrees with the one before. -/
theorem scrape_turn_shape
    (scraper : String → ScrapeResult)
    (responder : String → Option String → List (String × String) → AIResult)
    (fid : String) (uid : Nat) (c u p : String) (db : DBState)
    (hc : c ≠ "") (hv : verify_chat_ownership db c uid = true)
    (hp : pyStrip p ≠ "") (hu : pyStrip u ≠ "")
    (hs : (scraper (pyStrip u)).success = true) :
    (send_message scraper responder fid uid (some ⟨some c, u, p⟩) db).db.chat_metadata =
      db.chat_metadata.filter (fun m => m.chat_id ≠ c) ++
        [⟨c, sanitize_db_input (pyStrip u),
          sanitize_db_input ((scraper (pyStrip u)).content)⟩] ∧
    (∀ c' uid', verify_chat_ownership
        (send_message scraper responder fid uid (some ⟨some c, u, p⟩) db).db c' uid' =
      verify_chat_ownership db c' uid') := by
  have hr : resolveChat db fid uid (some c) = some (c, db) := resolveChat_owned hc hv
  have hout : send_message scraper responder fid uid (some ⟨some c, u, p⟩) db =
      finishTurn responder c (pyStrip p) (some (scraper (pyStrip u)).content)
        ((get_chat_messages db c).map (fun m => (m.role, m.content)))
        (save_chat_metadata db c (pyStrip u) (scraper (pyStrip u)).content)
        [⟨c, pyStrip u, scraper (pyStrip u)⟩] := by
    simp [send_message, hp, hr, hu, hs]
  rw [hout]
  rcases finishTurn_db_cases responder c (pyStrip p) (some (scraper (pyStrip u)).content)
      ((get_chat_messages db c).map (fun m => (m.role, m.content)))
      (save_chat_metadata db c (pyStrip u) (scraper (pyStrip u)).content)
      [⟨c, pyStrip u, scraper (pyStrip u)⟩] with hdb | hdb <;> rw [hdb]
  · refine ⟨by simp, fun c' uid' => ?_⟩
    rw [verify_chat_ownership_update]
    exact verify_eq_of_chats_eq (by simp) c' uid'
  · exact ⟨by simp, fun c' uid' => verify_eq_of_chats_eq (by simp) c' uid'⟩

/-- A Python slice `s[:n]` with `len(s) ≤ n` returns `s` unchanged. -/
theorem pyTake_of_le (s : String) (n : Nat) (h : pyLen s ≤ n) : pyTake s n = s := by
  unfold pyTake
  unfold pyLen at h
  rw [List.take_of_length_le h]

/-! ### Claim theorems -/

/-- C7: a turn whose prompt is empty after trimming whitespace fails
with the `'Prompt is required'` validation error (HTTP 400) and has no
side effects at all: the store is returned unchanged (in particular no
chat is created and no message or cache write occurs), and neither the
Content Fetcher nor the Generative Responder is invoked. -/
theorem empty_prompt_rejected (scraper : String → ScrapeResult)
    (responder : String → Option String → List (String × String) → AIResult)
    (freshChatId : String) (user_id : Nat) (d : RequestData) (db : DBState)
    (h : pyStrip d.prompt = "") :
    send_message scraper responder freshChatId user_id (some d) db =
      ⟨.error "Prompt is required" 400, db, [], []⟩ :=
  send_message_empty_prompt scraper responder freshChatId user_id d db h

/-- Witness for C7: a whitespace-only prompt is rejected without side
effects on the empty store. -/
theorem empty_prompt_rejected_witness :
    pyStrip "   " = "" ∧
    send_message failScraper (okResponder "r") "c1" 1
        (some ⟨none, "http://a.com", "   "⟩) emptyDB =
      ⟨.error "Prompt is required" 400, emptyDB, [], []⟩ :=
  ⟨by decide,
   empty_prompt_rejected failScraper (okResponder "r") "c1" 1
     ⟨none, "http://a.com", "   "⟩ emptyDB (by decide)⟩

/-- C2: with a (truthy) `chat_id` supplied and a non-empty prompt, a
run on a store where the chat does not exist and a run on a store where
the chat exists but belongs to a different user produce the same error
message `'Chat not found or access denied'` with the same status 404,
and neither run changes its store or calls a collaborator. -/
theorem missing_and_foreign_chat_indistinguishable
    (scraper : String → ScrapeResult)
    (responder : String → Option String → List (String × String) → AIResult)
    (fid : String) (uid : Nat) (d : RequestData)
    (db1 db2 : DBState) (c : String) (row : ChatRow)
    (hc : d.chat_id = some c) (hne : c ≠ "")
    (hp : pyStrip d.prompt ≠ "")
    (h1 : db1.chats.find? (fun ch => ch.id = c) = none)
    (h2 : db2.chats.find? (fun ch => ch.id = c) = some row)
    (h3 : row.user_id ≠ uid) :
    send_message scraper responder fid uid (some d) db1 =
      ⟨.error "Chat not found or access denied" 404, db1, [], []⟩ ∧
    send_message scraper responder fid uid (some d) db2 =
      ⟨.error "Chat not found or access denied" 404, db2, [], []⟩ := by
  have v1 : verify_chat_ownership db1 c uid = false := by
    unfold verify_chat_ownership
    rw [h1]
  have v2 : verify_chat_ownership db2 c uid = false := by
    unfold verify_chat_ownership
    rw [h2]
    simp [h3]
  constructor <;> simp [send_message, hp, hc, resolveChat, hne, v1, v2]

/-- Witness for C2: a concrete request for chat `"c9"` against an empty
store and against a store holding `"c9"` owned by user 2 yields the
identical 404 outcome for user 1, with both stores unchanged. -/
theorem missing_and_foreign_chat_indistinguishable_witness :
    send_message failScraper (okResponder "r") "f" 1
        (some ⟨some "c9", "", "hi"⟩) emptyDB =
      ⟨.error "Chat not found or access denied" 404, emptyDB, [], []⟩ ∧
    send_message failScraper (okResponder "r") "f" 1
        (some ⟨some "c9", "", "hi"⟩) ⟨[⟨"c9", 2, 0, 0⟩], [], [], 1⟩ =
      ⟨.error "Chat not found or access denied" 404,
        ⟨[⟨"c9", 2, 0, 0⟩], [], [], 1⟩, [], []⟩ :=
  missing_and_foreign_chat_indistinguishable failScraper (okResponder "r")
    "f" 1 ⟨some "c9", "", "hi"⟩ emptyDB ⟨[⟨"c9", 2, 0, 0⟩], [], [], 1⟩
    "c9" ⟨"c9", 2, 0, 0⟩ rfl (by decide) (by decide) (by decide) (by decide)
    (by decide)

/-- Counterexample for C1 as stated: on a turn with no `chat_id` whose
fetch fails, the turn does abort with the fetch error, yet a
persistence write has already happened — the store now contains a chat
row that was not there before the call, so the turn does not abort
"before any persistence write". -/
theorem fetch_fail_no_chat_id_still_creates_chat :
    (send_message failScraper (okResponder "r") "c1" 1
        (some ⟨none, "http://a.com", "hi"⟩) emptyDB).result =
      .error "Failed to scrape website: boom" 400 ∧
    (send_message failScraper (okResponder "r") "c1" 1
        (some ⟨none, "http://a.com", "hi"⟩) emptyDB).db.chats =
      [⟨"c1", 1, 0, 0⟩] ∧
    emptyDB.chats = [] := by decide

/-- C1 amended: a turn whose fetch fails aborts with the fetcher's
error message (status 400), the message table and the scrape-cache
table are identical to their pre-call state, and the responder is never
invoked — for every input, including one with no `chat_id`; a turn
with no `chat_id`, however, has already created (and keeps) a fresh
empty chat row before the fetch. -/
theorem fetch_fail_preserves_messages_and_cache
    (scraper : String → ScrapeResult)
    (responder : String → Option String → List (String × String) → AIResult)
    (fid : String) (uid : Nat) (d : RequestData) (db : DBState)
    (cid : String) (db1 : DBState)
    (hp : pyStrip d.prompt ≠ "")
    (hr : resolveChat db fid uid d.chat_id = some (cid, db1))
    (hu : pyStrip d.url ≠ "")
    (hf : (scraper (pyStrip d.url)).success = false) :
    send_message scraper responder fid uid (some d) db =
      ⟨.error ("Failed to scrape website: " ++ (scraper (pyStrip d.url)).error) 400,
        db1, [⟨cid, pyStrip d.url, scraper (pyStrip d.url)⟩], []⟩ ∧
    db1.messages = db.messages ∧
    db1.chat_metadata = db.chat_metadata := by
  refine ⟨by simp [send_message, hp, hr, hu, hf], ?_, ?_⟩ <;>
    rcases resolveChat_state hr with h | ⟨_, h⟩ <;> subst h <;> simp

/-- Witness for C1 amended: a failing fetch on a fresh chat leaves the
(empty) message and cache tables untouched and makes no responder
call. -/
theorem fetch_fail_preserves_messages_and_cache_witness :
    send_message failScraper (okResponder "r") "c1" 1
        (some ⟨none, "http://a.com", "hi"⟩) emptyDB =
      ⟨.error ("Failed to scrape website: " ++
          (failScraper (pyStrip "http://a.com")).error) 400,
        create_chat emptyDB "c1" 1,
        [⟨"c1", pyStrip "http://a.com", failScraper (pyStrip "http://a.com")⟩], []⟩ ∧
    (create_chat emptyDB "c1" 1).messages = emptyDB.messages ∧
    (create_chat emptyDB "c1" 1).chat_metadata = emptyDB.chat_metadata :=
  fetch_fail_preserves_messages_and_cache failScraper (okResponder "r") "c1" 1
    ⟨none, "http://a.com", "hi"⟩ emptyDB "c1" (create_chat emptyDB "c1" 1)
    (by decide) (by decide) (by decide) (by decide)

/-- C3: a turn that scrapes successfully but whose responder call fails
aborts with the generation error (status 500); no message is appended
and every pre-existing chat row — in particular its `updated_at` — is
unchanged, yet the scrape-cache write performed for this turn's URL
stays visible in the store afterwards. -/
theorem generation_fail_keeps_cache
    (scraper : String → ScrapeResult)
    (responder : String → Option String → List (String × String) → AIResult)
    (fid : String) (uid : Nat) (d : RequestData) (db : DBState)
    (cid : String) (db1 : DBState)
    (hp : pyStrip d.prompt ≠ "")
    (hr : resolveChat db fid uid d.chat_id = some (cid, db1))
    (hu : pyStrip d.url ≠ "")
    (hs : (scraper (pyStrip d.url)).success = true)
    (hg : (responder (pyStrip d.prompt) (some (scraper (pyStrip d.url)).content)
        ((get_chat_messages db1 cid).map (fun m => (m.role, m.content)))).success
          = false) :
    (send_message scraper responder fid uid (some d) db).result =
      .error ("Failed to generate response: " ++
        (responder (pyStrip d.prompt) (some (scraper (pyStrip d.url)).content)
          ((get_chat_messages db1 cid).map (fun m => (m.role, m.content)))).error)
        500 ∧
    (send_message scraper responder fid uid (some d) db).db.messages =
      db.messages ∧
    (∀ ch ∈ db.chats,
      ch ∈ (send_message scraper responder fid uid (some d) db).db.chats) ∧
    get_chat_metadata (send_message scraper responder fid uid (some d) db).db cid =
      some ⟨cid, sanitize_db_input (pyStrip d.url),
        sanitize_db_input ((scraper (pyStrip d.url)).content)⟩ := by
  have hout : send_message scraper responder fid uid (some d) db =
      ⟨.error ("Failed to generate response: " ++
          (responder (pyStrip d.prompt) (some (scraper (pyStrip d.url)).content)
            ((get_chat_messages db1 cid).map (fun m => (m.role, m.content)))).error)
          500,
        save_chat_metadata db1 cid (pyStrip d.url) (scraper (pyStrip d.url)).content,
        [⟨cid, pyStrip d.url, scraper (pyStrip d.url)⟩],
        [⟨pyStrip d.prompt, some (scraper (pyStrip d.url)).content,
          (get_chat_messages db1 cid).map (fun m => (m.role, m.content))⟩]⟩ := by
    simp [send_message, hp, hr, hu, hs, finishTurn, hg]
  rw [hout]
  refine ⟨rfl, ?_, ?_, get_chat_metadata_save db1 cid _ _⟩ <;>
    rcases resolveChat_state hr with h | ⟨_, h⟩ <;> subst h <;> simp
  intro ch hch
  exact Or.inl hch

/-- Witness for C3: a concrete turn on an existing chat whose scrape
succeeds with content `" A "` and whose responder fails leaves the
messages table empty, the chat row intact, and the sanitized cache row
visible. -/
theorem generation_fail_keeps_cache_witness :
    (send_message (okScraper " A ") failResponder "f" 1
        (some ⟨some "c1", "http://a.com", "hi"⟩) ⟨[⟨"c1", 1, 0, 0⟩], [], [], 1⟩).result =
      .error ("Failed to generate response: " ++
        (failResponder (pyStrip "hi") (some ((okScraper " A ") (pyStrip "http://a.com")).content)
          ((get_chat_messages ⟨[⟨"c1", 1, 0, 0⟩], [], [], 1⟩ "c1").map
            (fun m => (m.role, m.content)))).error) 500 ∧
    (send_message (okScraper " A ") failResponder "f" 1
        (some ⟨some "c1", "http://a.com", "hi"⟩) ⟨[⟨"c1", 1, 0, 0⟩], [], [], 1⟩).db.messages =
      (⟨[⟨"c1", 1, 0, 0⟩], [], [], 1⟩ : DBState).messages ∧
    (∀ ch ∈ (⟨[⟨"c1", 1, 0, 0⟩], [], [], 1⟩ : DBState).chats,
      ch ∈ (send_message (okScraper " A ") failResponder "f" 1
        (some ⟨some "c1", "http://a.com", "hi"⟩) ⟨[⟨"c1", 1, 0, 0⟩], [], [], 1⟩).db.chats) ∧
    get_chat_metadata (send_message (okScraper " A ") failResponder "f" 1
        (some ⟨some "c1", "http://a.com", "hi"⟩) ⟨[⟨"c1", 1, 0, 0⟩], [], [], 1⟩).db "c1" =
      some ⟨"c1", sanitize_db_input (pyStrip "http://a.com"),
        sanitize_db_input (((okScraper " A ") (pyStrip "http://a.com")).content)⟩ :=
  generation_fail_keeps_cache (okScraper " A ") failResponder "f" 1
    ⟨some "c1", "http://a.com", "hi"⟩ ⟨[⟨"c1", 1, 0, 0⟩], [], [], 1⟩ "c1"
    ⟨[⟨"c1", 1, 0, 0⟩], [], [], 1⟩ (by decide)
    (resolveChat_owned (by decide) (by decide)) (by decide) (by decide) (by decide)

/-- Counterexample for C5 as stated: scraping URL A and then URL B
whose fetched content is `" cb "` leaves the cache holding `"cb"` —
the sanitized form — not B's content byte-for-byte, so the single
remaining record does not contain "B's url and content" literally. -/
theorem cache_upsert_sanitizes_content :
    get_chat_metadata (send_message (okScraper " cb ") (okResponder "r2") "f2" 1
        (some ⟨some "c1", "http://b.com", "p2"⟩)
        (send_message (okScraper " ca ") (okResponder "r1") "f1" 1
          (some ⟨some "c1", "http://a.com", "p1"⟩)
          ⟨[⟨"c1", 1, 0, 0⟩], [], [], 1⟩).db).db "c1" =
      some ⟨"c1", "http://b.com", "cb"⟩ ∧
    ((okScraper " cb ") "http://b.com").content = " cb " ∧
    (" cb " : String) ≠ "cb" := by decide

/-- C5 amended: scraping URL A and then URL B on the same owned chat
leaves the cache lookup returning exactly one record for the chat,
holding only B's url and B's content as sanitized by the store (null
bytes removed, whitespace stripped) — the prior record is fully
replaced, never merged: last-write-wins. -/
theorem cache_upsert_last_write_wins
    (scraper1 scraper2 : String → ScrapeResult)
    (responder1 responder2 : String → Option String → List (String × String) → AIResult)
    (fid1 fid2 : String) (uid : Nat) (c uA pA uB pB : String)
    (db dbA dbB : DBState)
    (hc : c ≠ "") (hv : verify_chat_ownership db c uid = true)
    (hpA : pyStrip pA ≠ "") (hpB : pyStrip pB ≠ "")
    (huA : pyStrip uA ≠ "") (huB : pyStrip uB ≠ "")
    (hsA : (scraper1 (pyStrip uA)).success = true)
    (hsB : (scraper2 (pyStrip uB)).success = true)
    (h1 : dbA = (send_message scraper1 responder1 fid1 uid
      (some ⟨some c, uA, pA⟩) db).db)
    (h2 : dbB = (send_message scraper2 responder2 fid2 uid
      (some ⟨some c, uB, pB⟩) dbA).db) :
    get_chat_metadata dbB c =
      some ⟨c, sanitize_db_input (pyStrip uB),
        sanitize_db_input ((scraper2 (pyStrip uB)).content)⟩ ∧
    dbB.chat_metadata.filter (fun m => m.chat_id = c) =
      [⟨c, sanitize_db_input (pyStrip uB),
        sanitize_db_input ((scraper2 (pyStrip uB)).content)⟩] := by
  obtain ⟨hmetaA, hverA⟩ :=
    scrape_turn_shape scraper1 responder1 fid1 uid c uA pA db hc hv hpA huA hsA
  have hvA : verify_chat_ownership dbA c uid = true := by
    rw [h1, hverA c uid]
    exact hv
  obtain ⟨hmetaB, _⟩ :=
    scrape_turn_shape scraper2 responder2 fid2 uid c uB pB dbA hc hvA hpB huB hsB
  rw [← h2] at hmetaB
  constructor
  · unfold get_chat_metadata
    rw [hmetaB]
    exact metadata_lookup_replaced dbA.chat_metadata _ c rfl
  · rw [hmetaB]
    exact metadata_rows_replaced dbA.chat_metadata _ c rfl

/-- Witness for C5 amended: the concrete two-scrape run of the
counterexample, via the amended theorem. -/
theorem cache_upsert_last_write_wins_witness :
    get_chat_metadata (send_message (okScraper " cb ") (okResponder "r2") "f2" 1
        (some ⟨some "c1", "http://b.com", "p2"⟩)
        (send_message (okScraper " ca ") (okResponder "r1") "f1" 1
          (some ⟨some "c1", "http://a.com", "p1"⟩)
          ⟨[⟨"c1", 1, 0, 0⟩], [], [], 1⟩).db).db "c1" =
      some ⟨"c1", sanitize_db_input (pyStrip "http://b.com"),
        sanitize_db_input (((okScraper " cb ") (pyStrip "http://b.com")).content)⟩ ∧
    (send_message (okScraper " cb ") (okResponder "r2") "f2" 1
        (some ⟨some "c1", "http://b.com", "p2"⟩)
        (send_message (okScraper " ca ") (okResponder "r1") "f1" 1
          (some ⟨some "c1", "http://a.com", "p1"⟩)
          ⟨[⟨"c1", 1, 0, 0⟩], [], [], 1⟩).db).db.chat_metadata.filter
        (fun m => m.chat_id = "c1") =
      [⟨"c1", sanitize_db_input (pyStrip "http://b.com"),
        sanitize_db_input (((okScraper " cb ") (pyStrip "http://b.com")).content)⟩] :=
  cache_upsert_last_write_wins (okScraper " ca ") (okScraper " cb ")
    (okResponder "r1") (okResponder "r2") "f1" "f2" 1 "c1"
    "http://a.com" "p1" "http://b.com" "p2"
    ⟨[⟨"c1", 1, 0, 0⟩], [], [], 1⟩ _ _
    (by decide) (by decide) (by decide) (by decide) (by decide) (by decide)
    (by decide) (by decide) rfl rfl

/-- Counterexample for C6 as stated: a successful scrape can return
empty content, leaving a scrape-cache entry whose `last_content` is
`""`; a later turn with no url on that chat then invokes the responder
with NO page context (`none`), not with the stored `last_content`
(`some ""`), because the code tests the cached content for truthiness
rather than for presence. -/
theorem empty_cached_content_not_passed :
    get_chat_metadata (send_message (okScraper "") (okResponder "r1") "c1" 1
        (some ⟨none, "http://a.com", "p1"⟩) emptyDB).db "c1" =
      some ⟨"c1", "http://a.com", ""⟩ ∧
    (send_message failScraper (okResponder "r2") "f" 1
        (some ⟨some "c1", "", "p2"⟩)
        (send_message (okScraper "") (okResponder "r1") "c1" 1
          (some ⟨none, "http://a.com", "p1"⟩) emptyDB).db).genCalls.map
        (fun g => g.website_content) = [none] ∧
    (none : Option String) ≠ some "" := by decide

/-- C6 amended: on a turn whose url is empty after trimming, the
responder is invoked exactly once; it receives the chat's cached
`last_content` as page context when a cache entry exists with non-empty
content, and no page context when there is no entry — or when the entry
exists but its stored content is the empty string. A turn with no URL
and no usable cache still proceeds to the responder. -/
theorem omitted_url_page_context
    (scraper : String → ScrapeResult)
    (responder : String → Option String → List (String × String) → AIResult)
    (fid : String) (uid : Nat) (d : RequestData) (db : DBState)
    (cid : String) (db1 : DBState)
    (hp : pyStrip d.prompt ≠ "")
    (hr : resolveChat db fid uid d.chat_id = some (cid, db1))
    (hu : pyStrip d.url = "") :
    (∀ m, get_chat_metadata db1 cid = some m → m.last_scraped_content ≠ "" →
      (send_message scraper responder fid uid (some d) db).genCalls =
        [⟨pyStrip d.prompt, some m.last_scraped_content,
          (get_chat_messages db1 cid).map (fun x => (x.role, x.content))⟩]) ∧
    (get_chat_metadata db1 cid = none →
      (send_message scraper responder fid uid (some d) db).genCalls =
        [⟨pyStrip d.prompt, none,
          (get_chat_messages db1 cid).map (fun x => (x.role, x.content))⟩]) ∧
    (∀ m, get_chat_metadata db1 cid = some m → m.last_scraped_content = "" →
      (send_message scraper responder fid uid (some d) db).genCalls =
        [⟨pyStrip d.prompt, none,
          (get_chat_messages db1 cid).map (fun x => (x.role, x.content))⟩]) := by
  have hout : send_message scraper responder fid uid (some d) db =
      finishTurn responder cid (pyStrip d.prompt)
        (match get_chat_metadata db1 cid with
          | some m =>
              if m.last_scraped_content = "" then none
              else some m.last_scraped_content
          | none => none)
        ((get_chat_messages db1 cid).map (fun x => (x.role, x.content))) db1 [] := by
    simp [send_message, hp, hr, hu]
  refine ⟨fun m hm hne => ?_, fun hm => ?_, fun m hm he => ?_⟩ <;>
      rw [hout, finishTurn_genCalls] <;> simp [hm]
  · simp [hne]
  · simp [he]

/-- Witness for C6 amended: a url-less turn on a chat whose cache holds
`"CACHED"` passes exactly that string to the responder. -/
theorem omitted_url_page_context_witness :
    (send_message failScraper (okResponder "r") "f" 1
        (some ⟨some "c1", "", "q"⟩)
        ⟨[⟨"c1", 1, 0, 0⟩], [], [⟨"c1", "http://a.com", "CACHED"⟩], 1⟩).genCalls =
      [⟨pyStrip "q", some "CACHED",
        (get_chat_messages ⟨[⟨"c1", 1, 0, 0⟩], [], [⟨"c1", "http://a.com", "CACHED"⟩], 1⟩
          "c1").map (fun x => (x.role, x.content))⟩] :=
  (omitted_url_page_context failScraper (okResponder "r") "f" 1
      ⟨some "c1", "", "q"⟩
      ⟨[⟨"c1", 1, 0, 0⟩], [], [⟨"c1", "http://a.com", "CACHED"⟩], 1⟩ "c1"
      ⟨[⟨"c1", 1, 0, 0⟩], [], [⟨"c1", "http://a.com", "CACHED"⟩], 1⟩
      (by decide) (resolveChat_owned (by decide) (by decide)) (by decide)).1
    ⟨"c1", "http://a.com", "CACHED"⟩ (by decide) (by decide)

/-- C10: every message the store persists is transformed by
`sanitize_db_input` before insertion (null bytes removed, surrounding
whitespace stripped), and this is observable: a successful turn whose
responder output is `" r\x00 "` returns that exact text to the caller
while the assistant message read back from the chat is `"r"`. -/
theorem persisted_content_sanitized :
    (∀ (db : DBState) (cid role content : String),
      (add_message db cid role content).messages =
        db.messages ++ [⟨cid, role, sanitize_db_input content, db.clock⟩]) ∧
    (send_message failScraper (okResponder " r\x00 ") "c1" 1
        (some ⟨none, "", "hi"⟩) emptyDB).result = .ok " r\x00 " "c1" ∧
    (send_message failScraper (okResponder " r\x00 ") "c1" 1
        (some ⟨none, "", "hi"⟩) emptyDB).db.messages.map (fun m => m.content) =
      ["hi", "r"] ∧
    (" r\x00 " : String) ≠ "r" :=
  ⟨fun _ _ _ _ => rfl, by decide, by decide, by decide⟩

/-- C8: every entry of the chat-history listing previews its chat as
the literal `"New Chat"` when the chat has no messages, as the first
message's content unchanged when that content is at most 50 characters,
and as the first 50 characters followed by `"..."` when it is longer —
so the ellipsis is appended exactly when truncation occurred. -/
theorem history_preview_cases (db : DBState) (uid : Nat) (e : HistoryEntry)
    (he : e ∈ get_history db uid) :
    (get_chat_messages db e.chat_id = [] → e.preview = "New Chat") ∧
    (∀ m rest, get_chat_messages db e.chat_id = m :: rest →
      (pyLen m.content ≤ 50 → e.preview = m.content) ∧
      (50 < pyLen m.content → e.preview = pyTake m.content 50 ++ "...")) := by
  rcases List.mem_map.1 he with ⟨c, hc, rfl⟩
  refine ⟨fun h0 => ?_, fun m rest hmr => ⟨fun hle => ?_, fun hlt => ?_⟩⟩
  · show previewOf (get_chat_messages db c.id) = "New Chat"
    rw [h0]
    rfl
  · show previewOf (get_chat_messages db c.id) = m.content
    rw [hmr]
    show pyTake m.content 50 ++ (if 50 < pyLen m.content then "..." else "") =
      m.content
    rw [if_neg (by omega), pyTake_of_le m.content 50 hle]
    exact String.append_empty m.content
  · show previewOf (get_chat_messages db c.id) = pyTake m.content 50 ++ "..."
    rw [hmr]
    show pyTake m.content 50 ++ (if 50 < pyLen m.content then "..." else "") =
      pyTake m.content 50 ++ "..."
    rw [if_pos hlt]

/-- Witness for C8: on a store whose only chat's first message is 60
`'x'` characters, the listing previews it as 50 `'x'` characters
followed by `"..."`. -/
theorem history_preview_cases_witness :
    (⟨"c1", 0, 0, String.mk (List.replicate 50 'x') ++ "..."⟩ : HistoryEntry) ∈
      get_history ⟨[⟨"c1", 1, 0, 0⟩],
        [⟨"c1", "user", String.mk (List.replicate 60 'x'), 0⟩], [], 1⟩ 1 ∧
    (String.mk (List.replicate 50 'x') ++ "..." : String) =
      pyTake (String.mk (List.replicate 60 'x')) 50 ++ "..." := by
  have he : (⟨"c1", 0, 0, String.mk (List.replicate 50 'x') ++ "..."⟩ : HistoryEntry) ∈
      get_history ⟨[⟨"c1", 1, 0, 0⟩],
        [⟨"c1", "user", String.mk (List.replicate 60 'x'), 0⟩], [], 1⟩ 1 := by
    refine List.mem_map.2 ⟨⟨"c1", 1, 0, 0⟩, ?_, by decide⟩
    exact List.mem_mergeSort.2 (by decide)
  have := (history_preview_cases ⟨[⟨"c1", 1, 0, 0⟩],
      [⟨"c1", "user", String.mk (List.replicate 60 'x'), 0⟩], [], 1⟩ 1
      ⟨"c1", 0, 0, String.mk (List.replicate 50 'x') ++ "..."⟩ he).2
      ⟨"c1", "user", String.mk (List.replicate 60 'x'), 0⟩ [] (by decide)
  exact ⟨he, this.2 (by decide)⟩

/-- A commit whose result is the 200 payload came from a successful
responder call and performed the three-write commit. -/
theorem finishTurn_ok_shape
    {responder : String → Option String → List (String × String) → AIResult}
    {cid p : String} {wc : Option String} {hist : List (String × String)}
    {dbx : DBState} {sCalls : List ScrapeEvent} {resp c : String}
    (hres : (finishTurn responder cid p wc hist dbx sCalls).result = .ok resp c) :
    (responder p wc hist).success = true ∧
    resp = (responder p wc hist).response ∧ cid = c ∧
    (finishTurn responder cid p wc hist dbx sCalls).db =
      update_chat_timestamp (add_message (add_message dbx cid "user" p) cid
        "assistant" (responder p wc hist).response) cid := by
  by_cases hg : (responder p wc hist).success = true
  · have h2 := hres
    simp only [finishTurn, hg, if_pos] at h2
    simp only [TurnResult.ok.injEq] at h2
    exact ⟨hg, h2.1.symm, h2.2, by simp [finishTurn, hg]⟩
  · exfalso
    have h2 := hres
    simp [finishTurn, hg] at h2

/-- Dissection of a successful turn: the ownership check passed and the
store advanced by exactly the three-write commit — the two messages
carry the two clock stamps, the clock advanced by three, and the chat's
`updated_at` column was set to the commit stamp. -/
theorem turn_ok_shape {uid : Nat} {c : String} {db : DBState} {uc ac : String}
    {db' : DBState} (h : TurnOk uid c db uc ac db') :
    verify_chat_ownership db c uid = true ∧
    db'.messages = db.messages ++
      [⟨c, "user", uc, db.clock⟩, ⟨c, "assistant", ac, db.clock + 1⟩] ∧
    db'.clock = db.clock + 3 ∧
    db'.chats = db.chats.map (fun ch =>
      if ch.id = c then { ch with updated_at := db.clock + 2 } else ch) := by
  obtain ⟨hc, scraper, responder, fid, d, resp, hcid, hres, hdb, huc, hac⟩ := h
  have hpne : pyStrip d.prompt ≠ "" := by
    intro hp
    rw [send_message_empty_prompt scraper responder fid uid d db hp] at hres
    simp at hres
  have hv : verify_chat_ownership db c uid = true := by
    cases hb : verify_chat_ownership db c uid
    · exfalso
      have hrnone : resolveChat db fid uid d.chat_id = none := by
        rw [hcid]
        simp [resolveChat, hc, hb]
      have : send_message scraper responder fid uid (some d) db =
          ⟨.error "Chat not found or access denied" 404, db, [], []⟩ := by
        simp [send_message, hpne, hrnone]
      rw [this] at hres
      simp at hres
    · rfl
  have hr : resolveChat db fid uid d.chat_id = some (c, db) := by
    rw [hcid]
    exact resolveChat_owned hc hv
  refine ⟨hv, ?_⟩
  by_cases hu : pyStrip d.url = ""
  · have hout : send_message scraper responder fid uid (some d) db =
        finishTurn responder c (pyStrip d.prompt)
          (match get_chat_metadata db c with
            | some m =>
                if m.last_scraped_content = "" then none
                else some m.last_scraped_content
            | none => none)
          ((get_chat_messages db c).map (fun x => (x.role, x.content))) db [] := by
      simp [send_message, hpne, hr, hu]
    rw [hout] at hres hdb
    obtain ⟨hg, hresp, -, hdbx⟩ := finishTurn_ok_shape hres
    rw [hdbx] at hdb
    rw [← hdb, huc, hac, hresp]
    refine ⟨by simp, by simp, by simp⟩
  · cases hs : (scraper (pyStrip d.url)).success with
    | false =>
        exfalso
        have hout : send_message scraper responder fid uid (some d) db =
            ⟨.error ("Failed to scrape website: " ++ (scraper (pyStrip d.url)).error)
              400, db, [⟨c, pyStrip d.url, scraper (pyStrip d.url)⟩], []⟩ := by
          simp [send_message, hpne, hr, hu, hs]
        rw [hout] at hres
        simp at hres
    | true =>
        have hout : send_message scraper responder fid uid (some d) db =
            finishTurn responder c (pyStrip d.prompt)
              (some (scraper (pyStrip d.url)).content)
              ((get_chat_messages db c).map (fun x => (x.role, x.content)))
              (save_chat_metadata db c (pyStrip d.url) (scraper (pyStrip d.url)).content)
              [⟨c, pyStrip d.url, scraper (pyStrip d.url)⟩] := by
          simp [send_message, hpne, hr, hu, hs]
        rw [hout] at hres hdb
        obtain ⟨hg, hresp, -, hdbx⟩ := finishTurn_ok_shape hres
        rw [hdbx] at hdb
        rw [← hdb, huc, hac, hresp]
        refine ⟨by simp, by simp, by simp⟩

/-- A successful turn preserves well-formedness. -/
theorem turn_ok_WF {uid : Nat} {c : String} {db : DBState} {uc ac : String}
    {db' : DBState} (h : TurnOk uid c db uc ac db') (hWF : WF db) : WF db' := by
  obtain ⟨-, hmsgs, hclock, hchats⟩ := turn_ok_shape h
  constructor
  · intro m hm
    rw [hclock]
    rw [hmsgs] at hm
    rcases List.mem_append.1 hm with hm | hm
    · have := hWF.1 m hm
      omega
    · simp only [List.mem_cons, List.mem_singleton] at hm
      rcases hm with rfl | rfl | h
      · simp
      · simp
      · cases h
  · intro ch hch
    rw [hclock]
    rw [hchats] at hch
    rcases List.mem_map.1 hch with ⟨ch0, hch0, rfl⟩
    have hlt := hWF.2 ch0 hch0
    by_cases hid : ch0.id = c
    · simp [hid]
    · simp [hid]
      omega

/-- A successful turn strictly advances the chat's `updated_at`. -/
theorem turn_ok_updated_at {uid : Nat} {c : String} {db : DBState} {uc ac : String}
    {db' : DBState} (h : TurnOk uid c db uc ac db') (hWF : WF db) :
    ∃ t, chatUpdatedAt db c = some t ∧
      chatUpdatedAt db' c = some (db.clock + 2) ∧ t < db.clock + 2 := by
  obtain ⟨hv, -, -, hchats⟩ := turn_ok_shape h
  unfold verify_chat_ownership at hv
  cases hf : db.chats.find? (fun ch => ch.id = c) with
  | none =>
      rw [hf] at hv
      simp at hv
  | some row =>
      have hrowid : row.id = c := by simpa using List.find?_some hf
      have hrowmem : row ∈ db.chats := List.mem_of_find?_eq_some hf
      have hlt : row.updated_at < db.clock := hWF.2 row hrowmem
      refine ⟨row.updated_at, ?_, ?_, by omega⟩
      · unfold chatUpdatedAt
        rw [hf]
        rfl
      · unfold chatUpdatedAt
        rw [hchats, List.find?_map]
        have hpred : ((fun ch : ChatRow => decide (ch.id = c)) ∘
            (fun ch => if ch.id = c then { ch with updated_at := db.clock + 2 }
              else ch)) = (fun ch : ChatRow => decide (ch.id = c)) := by
          funext ch
          simp [Function.comp]
        rw [hpred, hf]
        simp [hrowid]

/-- The per-turn message pattern has two messages per turn. -/
theorem length_turn_flatten (ps : List (String × String)) :
    (ps.flatMap (fun p => [("user", p.1), ("assistant", p.2)])).length =
      2 * ps.length := by
  induction ps with
  | nil => rfl
  | cons p ps ih =>
      simp only [List.flatMap_cons, List.length_append, ih, List.length_cons]
      simp
      omega

/-- Induction workhorse for chains of successful turns: the chain
preserves well-formedness, only appends messages — all on chat `c`,
freshly stamped and in strictly increasing timestamp order — and, if
non-empty, strictly advances the chat's `updated_at`. -/
theorem succ_chain_shape (uid : Nat) (c : String) (ps : List (String × String)) :
    ∀ (db db' : DBState), WF db → SuccChain uid c db ps db' →
      WF db' ∧ db.clock ≤ db'.clock ∧
      (∃ L, db'.messages = db.messages ++ L ∧
        (∀ m ∈ L, m.chat_id = c ∧ db.clock ≤ m.timestamp ∧
          m.timestamp < db'.clock) ∧
        L.map (fun m => (m.role, m.content)) =
          ps.flatMap (fun p => [("user", p.1), ("assistant", p.2)]) ∧
        List.Chain' (fun a b => a.timestamp < b.timestamp) L) ∧
      (ps ≠ [] → ∃ t t', chatUpdatedAt db c = some t ∧
        chatUpdatedAt db' c = some t' ∧ t < t') := by
  induction ps with
  | nil =>
      intro db db' hWF hch
      have hdb : db' = db := hch
      subst hdb
      exact ⟨hWF, Nat.le_refl _, ⟨[], by simp, by simp, by simp, by simp⟩,
        fun hne => absurd rfl hne⟩
  | cons p ps ih =>
      intro db db'' hWF hch
      obtain ⟨db1, hstep, hrest⟩ := hch
      obtain ⟨-, hmsgs, hclock, -⟩ := turn_ok_shape hstep
      have hWF1 := turn_ok_WF hstep hWF
      obtain ⟨hWF', hle, ⟨L, hmsgs', hLbound, hLmap, hLchain⟩, hupd⟩ :=
        ih db1 db'' hWF1 hrest
      have hclock'' : db.clock + 3 ≤ db''.clock := by
        rw [hclock] at hle
        exact hle
      refine ⟨hWF', by omega, ?_, ?_⟩
      · refine ⟨⟨c, "user", p.1, db.clock⟩ :: ⟨c, "assistant", p.2, db.clock + 1⟩ :: L,
          ?_, ?_, ?_, ?_⟩
        · rw [hmsgs', hmsgs]
          simp
        · intro m hm
          simp only [List.mem_cons] at hm
          rcases hm with rfl | rfl | hm
          · exact ⟨rfl, Nat.le_refl _, show db.clock < db''.clock by omega⟩
          · exact ⟨rfl, show db.clock ≤ db.clock + 1 by omega,
              show db.clock + 1 < db''.clock by omega⟩
          · obtain ⟨h1, h2, h3⟩ := hLbound m hm
            rw [hclock] at h2
            exact ⟨h1, by omega, h3⟩
        · simp [hLmap]
        · refine List.chain'_cons'.2 ⟨fun y hy => by simp at hy; subst hy; simp, ?_⟩
          refine List.chain'_cons'.2 ⟨fun y hy => ?_, hLchain⟩
          have hym : y ∈ L := List.mem_of_mem_head? hy
          obtain ⟨-, h2, -⟩ := hLbound y hym
          rw [hclock] at h2
          simp only
          omega
      · intro _hne
        obtain ⟨t, ht, ht1, hlt⟩ := turn_ok_updated_at hstep hWF
        by_cases hps : ps = []
        · subst hps
          have hdb : db'' = db1 := hrest
          subst hdb
          exact ⟨t, db.clock + 2, ht, ht1, hlt⟩
        · obtain ⟨t1, t2, ht1', ht2, hlt2⟩ := hupd hps
          rw [ht1] at ht1'
          have ht1eq : db.clock + 2 = t1 := by
            injection ht1'
          exact ⟨t, t2, ht, ht2, by omega⟩

/-- Counterexample for C4 as stated: one successful turn whose
responder output is `" hello "` yields an assistant message whose
content is the sanitized `"hello"`, not the responder output — so the
claim's "content = the responder output" fails (and likewise
"content = the prompt" fails for prompts containing null bytes). -/
theorem turn_commit_sanitizes_assistant_content :
    (send_message failScraper (okResponder " hello ") "f" 1
        (some ⟨some "c1", "", "hi"⟩) ⟨[⟨"c1", 1, 0, 0⟩], [], [], 1⟩).result =
      .ok " hello " "c1" ∧
    (get_chat_messages (send_message failScraper (okResponder " hello ") "f" 1
        (some ⟨some "c1", "", "hi"⟩) ⟨[⟨"c1", 1, 0, 0⟩], [], [], 1⟩).db "c1").map
        (fun m => (m.role, m.content)) =
      [("user", "hi"), ("assistant", "hello")] ∧
    (" hello " : String) ≠ "hello" := by decide

/-- C4 amended: starting from a well-formed store in which chat `c` has
no messages, after a chain of N successful turns the chat's message
listing returns exactly 2N messages, in strictly increasing timestamp
order, alternating roles user, assistant, ... starting with user, where
each turn's user message (content = the sanitized prompt) precedes its
paired assistant message (content = the sanitized responder output);
and each successful turn — from any well-formed state — preserves
well-formedness and strictly advances the chat's `updated_at` (so along
the chain every single turn advances it, and in particular every
non-empty chain advances it end to end). -/
theorem successful_turns_message_history (uid : Nat) (c : String)
    (ps : List (String × String)) (db db' : DBState)
    (hWF : WF db) (h0 : get_chat_messages db c = [])
    (hchain : SuccChain uid c db ps db') :
    (get_chat_messages db' c).length = 2 * ps.length ∧
    (get_chat_messages db' c).map (fun m => (m.role, m.content)) =
      ps.flatMap (fun p => [("user", p.1), ("assistant", p.2)]) ∧
    List.Chain' (fun a b => a.timestamp < b.timestamp) (get_chat_messages db' c) ∧
    (∀ (dbx : DBState) (uc ac : String) (dby : DBState), WF dbx →
      TurnOk uid c dbx uc ac dby →
      WF dby ∧ ∃ t t', chatUpdatedAt dbx c = some t ∧
        chatUpdatedAt dby c = some t' ∧ t < t') ∧
    (ps ≠ [] → ∃ t t', chatUpdatedAt db c = some t ∧
      chatUpdatedAt db' c = some t' ∧ t < t') := by
  obtain ⟨hWF', hle, ⟨L, hmsgs, hbound, hmap, hchainL⟩, hupd⟩ :=
    succ_chain_shape uid c ps db db' hWF hchain
  have hfilter : get_chat_messages db' c = L := by
    unfold get_chat_messages at h0 ⊢
    rw [hmsgs, List.filter_append, h0, List.nil_append]
    exact List.filter_eq_self.2 (fun m hm => by simp [(hbound m hm).1])
  rw [hfilter]
  refine ⟨?_, hmap, hchainL, ?_, hupd⟩
  · have hlen := congrArg List.length hmap
    rw [List.length_map] at hlen
    rw [hlen, length_turn_flatten]
  · intro dbx uc ac dby hWFx hstep
    obtain ⟨t, ht, ht', hlt⟩ := turn_ok_updated_at hstep hWFx
    exact ⟨turn_ok_WF hstep hWFx, t, dbx.clock + 2, ht, ht', hlt⟩

/-- Witness for C4 amended: a one-turn chain with prompt `"hi"` and
responder output `"ok!"` on a fresh chat yields the 2-message
alternating listing, and that single successful turn preserves
well-formedness and advances `updated_at` from 0 to 3. -/
theorem successful_turns_message_history_witness :
    (get_chat_messages ⟨[⟨"c1", 7, 0, 3⟩],
        [⟨"c1", "user", "hi", 1⟩, ⟨"c1", "assistant", "ok!", 2⟩], [], 4⟩
      "c1").length = 2 * ([("hi", "ok!")] : List (String × String)).length ∧
    (get_chat_messages ⟨[⟨"c1", 7, 0, 3⟩],
        [⟨"c1", "user", "hi", 1⟩, ⟨"c1", "assistant", "ok!", 2⟩], [], 4⟩
      "c1").map (fun m => (m.role, m.content)) =
      ([("hi", "ok!")] : List (String × String)).flatMap
        (fun p => [("user", p.1), ("assistant", p.2)]) ∧
    List.Chain' (fun a b => a.timestamp < b.timestamp)
      (get_chat_messages ⟨[⟨"c1", 7, 0, 3⟩],
        [⟨"c1", "user", "hi", 1⟩, ⟨"c1", "assistant", "ok!", 2⟩], [], 4⟩ "c1") ∧
    (([("hi", "ok!")] : List (String × String)) ≠ [] → ∃ t t',
      chatUpdatedAt ⟨[⟨"c1", 7, 0, 0⟩], [], [], 1⟩ "c1" = some t ∧
      chatUpdatedAt ⟨[⟨"c1", 7, 0, 3⟩],
        [⟨"c1", "user", "hi", 1⟩, ⟨"c1", "assistant", "ok!", 2⟩], [], 4⟩ "c1" =
        some t' ∧ t < t') ∧
    (WF ⟨[⟨"c1", 7, 0, 3⟩],
        [⟨"c1", "user", "hi", 1⟩, ⟨"c1", "assistant", "ok!", 2⟩], [], 4⟩ ∧
      ∃ t t', chatUpdatedAt ⟨[⟨"c1", 7, 0, 0⟩], [], [], 1⟩ "c1" = some t ∧
        chatUpdatedAt ⟨[⟨"c1", 7, 0, 3⟩],
          [⟨"c1", "user", "hi", 1⟩, ⟨"c1", "assistant", "ok!", 2⟩], [], 4⟩ "c1" =
          some t' ∧ t < t') := by
  have hturn : TurnOk 7 "c1" ⟨[⟨"c1", 7, 0, 0⟩], [], [], 1⟩ "hi" "ok!"
      ⟨[⟨"c1", 7, 0, 3⟩], [⟨"c1", "user", "hi", 1⟩, ⟨"c1", "assistant", "ok!", 2⟩],
        [], 4⟩ :=
    ⟨by decide, failScraper, okResponder "ok!", "f", ⟨some "c1", "", "hi"⟩, "ok!",
      rfl, by decide, by decide, by decide, by decide⟩
  have h := successful_turns_message_history 7 "c1" [("hi", "ok!")]
    ⟨[⟨"c1", 7, 0, 0⟩], [], [], 1⟩
    ⟨[⟨"c1", 7, 0, 3⟩], [⟨"c1", "user", "hi", 1⟩, ⟨"c1", "assistant", "ok!", 2⟩], [], 4⟩
    (by decide) (by decide)
    ⟨⟨[⟨"c1", 7, 0, 3⟩], [⟨"c1", "user", "hi", 1⟩, ⟨"c1", "assistant", "ok!", 2⟩],
      [], 4⟩, hturn, rfl⟩
  exact ⟨h.1, h.2.1, h.2.2.1, h.2.2.2.2,
    h.2.2.2.1 ⟨[⟨"c1", 7, 0, 0⟩], [], [], 1⟩ "hi" "ok!"
      ⟨[⟨"c1", 7, 0, 3⟩], [⟨"c1", "user", "hi", 1⟩, ⟨"c1", "assistant", "ok!", 2⟩],
        [], 4⟩ (by decide) hturn⟩

/-- Counterexample for C9 as stated: a turn whose fetch successfully
returned `" A "` leaves a cache record whose `last_content` is the
sanitized `"A"` — the stored bytes do not equal the fetcher's output
unmodified. -/
theorem cache_stores_sanitized_fetch_output :
    (send_message (okScraper " A ") (okResponder "r") "c1" 1
        (some ⟨none, "http://a.com", "hi"⟩) emptyDB).db.chat_metadata =
      [⟨"c1", "http://a.com", "A"⟩] ∧
    (send_message (okScraper " A ") (okResponder "r") "c1" 1
        (some ⟨none, "http://a.com", "hi"⟩) emptyDB).scrapeCalls.map
        (fun e => e.result.content) = [" A "] ∧
    (" A " : String) ≠ "A" := by decide

/-- C9 amended: in every reachable state, each chat's scrape-cache
record stores, in `last_url` and `last_content`, exactly the sanitized
url and the sanitized content (null bytes removed, surrounding
whitespace stripped) of a scraper call for that chat that succeeded
earlier in the run. -/
theorem reachable_cache_content_from_fetch {db : DBState}
    {tr : List ScrapeEvent} (h : Reachable db tr) :
    ∀ m ∈ db.chat_metadata, ∃ e ∈ tr, e.result.success = true ∧
      m.chat_id = e.chat_id ∧ m.last_url = sanitize_db_input e.url ∧
      m.last_scraped_content = sanitize_db_input e.result.content := by
  induction h with
  | init =>
      intro m hm
      cases hm
  | newChat fid uid db0 tr0 hprev ih =>
      intro m hm
      exact ih m (by simpa using hm)
  | turn scraper responder fid uid data db0 tr0 hprev ih =>
      intro m hm
      rcases send_message_metadata_cases scraper responder fid uid data db0 with
        hcase | ⟨cid, u, sr, hcalls, hsucc, hmeta⟩
      · rw [hcase] at hm
        obtain ⟨e, he, hrest⟩ := ih m hm
        exact ⟨e, List.mem_append_left _ he, hrest⟩
      · rw [hmeta] at hm
        rcases List.mem_append.1 hm with hm | hm
        · obtain ⟨e, he, hrest⟩ := ih m (List.mem_filter.1 hm).1
          exact ⟨e, List.mem_append_left _ he, hrest⟩
        · simp only [List.mem_singleton] at hm
          subst hm
          refine ⟨⟨cid, u, sr⟩, List.mem_append_right _ ?_, hsucc, rfl, rfl, rfl⟩
          rw [hcalls]
          exact List.mem_singleton_self _

/-- Witness for C9 amended: after a reachable one-turn run that fetched
`" A "`, the cache row for `"c1"` is justified by that very scraper
call, whose sanitized content is the stored `"A"`. -/
theorem reachable_cache_content_from_fetch_witness :
    ∃ e ∈ ([] : List ScrapeEvent) ++
        (send_message (okScraper " A ") (okResponder "r") "c1" 1
          (some ⟨none, "http://a.com", "hi"⟩) emptyDB).scrapeCalls,
      e.result.success = true ∧
      (⟨"c1", "http://a.com", "A"⟩ : MetadataRow).chat_id = e.chat_id ∧
      (⟨"c1", "http://a.com", "A"⟩ : MetadataRow).last_url =
        sanitize_db_input e.url ∧
      (⟨"c1", "http://a.com", "A"⟩ : MetadataRow).last_scraped_content =
        sanitize_db_input e.result.content :=
  reachable_cache_content_from_fetch
    (Reachable.turn (okScraper " A ") (okResponder "r") "c1" 1
      (some ⟨none, "http://a.com", "hi"⟩) emptyDB [] Reachable.init)
    ⟨"c1", "http://a.com", "A"⟩ (by decide)

end ScraperChat
